import Mathlib

/-!
Shallow embedding of the resilient transactional statement executor from
`src/lightning/common/util.go`: the error classifier `isRetryableError`,
the batch executor `ExecWithRetry` with its per-attempt body
`executeSQLImp`, and the single-row querier `QueryRowWithRetry`.

Go errors are modelled by the inductive type `GoErr`; the `traced`
constructor stands for the annotation wrapper `errors.Trace`, and `cause`
stands for `errors.Cause`, which unwraps every annotation layer down to
the root error.  The database is modelled by an abstract committed state
of type `sigma` together with a per-attempt oracle (`AttemptEnv`) that
decides the outcome of each transaction primitive; transaction operations,
log calls and backoff sleeps are recorded explicitly so that attempt
counts, rollbacks and sleep durations are provable.
-/

set_option autoImplicit false

namespace PdCommon

/-- Model of a Go error value.  `badConn` is the `driver.ErrBadConn`
sentinel; `netErr b` is a `net.Error` whose `Timeout()` method returns
`b`; `mysqlErr n` is a `*mysql.MySQLError` with `Number = n`;
`other t` is any error of an unrecognized shape; `traced e` is
`errors.Trace(e)`, an annotation that preserves the root cause. -/
inductive GoErr where
  | badConn : GoErr
  | netErr (isTimeout : Bool) : GoErr
  | mysqlErr (number : Nat) : GoErr
  | other (tag : Nat) : GoErr
  | traced (inner : GoErr) : GoErr
deriving DecidableEq

/-- Model of `errors.Cause`: strip every annotation layer. -/
def cause : GoErr → GoErr
  | .traced e => cause e
  | .badConn => .badConn
  | .netErr b => .netErr b
  | .mysqlErr n => .mysqlErr n
  | .other t => .other t

/-- MySQL error code `tmysql.ErrUnknown` (unknown error). -/
def ErrUnknown : Nat := 1105

/-- MySQL error code `tmysql.ErrLockDeadlock`. -/
def ErrLockDeadlock : Nat := 1213

/-- TiDB error code `tmysql.ErrPDServerTimeout`. -/
def ErrPDServerTimeout : Nat := 9001

/-- TiDB error code `tmysql.ErrTiKVServerTimeout`. -/
def ErrTiKVServerTimeout : Nat := 9002

/-- TiDB error code `tmysql.ErrTiKVServerBusy`. -/
def ErrTiKVServerBusy : Nat := 9003

/-- TiDB error code `tmysql.ErrResolveLockTimeout`. -/
def ErrResolveLockTimeout : Nat := 9004

/-- TiDB error code `tmysql.ErrRegionUnavailable`. -/
def ErrRegionUnavailable : Nat := 9005

/-- The case list of the `switch mysqlErr.Number` statement in
`isRetryableError`: the closed set of backend codes treated as
retryable. -/
def knownTransientCodes : List Nat :=
  [ErrUnknown, ErrLockDeadlock, ErrPDServerTimeout, ErrTiKVServerTimeout,
   ErrTiKVServerBusy, ErrResolveLockTimeout, ErrRegionUnavailable]

/-- The body of `isRetryableError` after `err = errors.Cause(err)`:
the bad-connection sentinel is retryable; a `net.Error` is retryable
exactly when it reports a timeout; a `*mysql.MySQLError` is retryable
exactly when its code is in the switch case list (default branch of the
switch returns false); every other error falls through to the final
`return true`. -/
def isRetryableRoot : GoErr → Bool
  | .badConn => true
  | .netErr isTimeout => isTimeout
  | .mysqlErr n => knownTransientCodes.contains n
  | .other _ => true
  | .traced _ => true

/-- Model of `isRetryableError` in `util.go`: first unwrap to the root
cause, then classify.  `true` means Transient (retry), `false` means
Fatal (fail fast). -/
def isRetryableError (err : GoErr) : Bool :=
  isRetryableRoot (cause err)

/-- Outcome the oracle assigns to one statement execution inside a
transaction: success with an effect on the database state, or failure
with an error. -/
inductive StmtResult (sigma : Type) where
  | ok (eff : sigma → sigma)
  | fail (e : GoErr)

/-- Per-attempt oracle: the outcome of `db.BeginTx` (`none` = success),
of the i-th `txn.ExecContext`, of `txn.Commit`, and of `txn.Rollback`
(`some rerr` = the rollback itself fails with `rerr`). -/
structure AttemptEnv (sigma : Type) where
  beginResult : Option GoErr
  stmtResult : Nat → StmtResult sigma
  commitResult : Option GoErr
  rollbackResult : Option GoErr

/-- Transaction operations issued against the database handle. -/
inductive TxOp where
  | txBegin : TxOp
  | execStmt (s : String) : TxOp
  | txRollback : TxOp
  | txCommit : TxOp
deriving DecidableEq

/-- Log calls issued by `executeSQLImp`. -/
inductive LogEntry where
  | beginFailed (e : GoErr) : LogEntry
  | stmtDebug (s : String) : LogEntry
  | stmtFailed (s : String) (e : GoErr) : LogEntry
  | rollbackFailed (s : String) (e : GoErr) : LogEntry
  | commitFailed (e : GoErr) : LogEntry
deriving DecidableEq

/-- The log entries produced by the `rerr := txn.Rollback()` block while
handling a failure of statement `s`: the rollback error is logged when
present, and nothing else happens with it. -/
def rollbackLogs {sigma : Type} (env : AttemptEnv sigma) (s : String) : List LogEntry :=
  match env.rollbackResult with
  | some rerr => [LogEntry.rollbackFailed s rerr]
  | none => []

/-- Result of one call to `executeSQLImp`: the returned error (`none` =
success), the committed database state after the call, the transaction
operations issued, and the log calls made. -/
structure ImpResult (sigma : Type) where
  err : Option GoErr
  db : sigma
  trace : List TxOp
  logs : List LogEntry

/-- The `for i := range sqls` loop of `executeSQLImp`: execute the
statements in order on the working (uncommitted) state, starting at
statement index `start`; on the first failure, roll back and return the
statement error. -/
def runStmts {sigma : Type} (env : AttemptEnv sigma) :
    List String → Nat → sigma → (sigma ⊕ GoErr) × List TxOp × List LogEntry
  | [], _, work => (Sum.inl work, [], [])
  | s :: rest, i, work =>
    match env.stmtResult i with
    | .ok eff =>
      let r := runStmts env rest (i + 1) (eff work)
      (r.1, TxOp.execStmt s :: r.2.1, LogEntry.stmtDebug s :: r.2.2)
    | .fail e =>
      (Sum.inr e, [TxOp.execStmt s, TxOp.txRollback],
        LogEntry.stmtDebug s :: LogEntry.stmtFailed s e :: rollbackLogs env s)

/-- Model of `executeSQLImp`: begin a transaction (failure returns the
traced begin error), run the statements (a statement failure rolls back,
leaves the committed state unchanged and returns the traced statement
error — never the rollback error, which is only logged), then commit
(a commit failure leaves the committed state unchanged and returns the
traced commit error; success publishes the working state). -/
def executeSQLImp {sigma : Type} (env : AttemptEnv sigma) (db : sigma)
    (sqls : List String) : ImpResult sigma :=
  match env.beginResult with
  | some e =>
    { err := some (GoErr.traced e), db := db, trace := [TxOp.txBegin],
      logs := [LogEntry.beginFailed e] }
  | none =>
    match runStmts env sqls 0 db with
    | (Sum.inr e, t, ls) =>
      { err := some (GoErr.traced e), db := db, trace := TxOp.txBegin :: t, logs := ls }
    | (Sum.inl work, t, ls) =>
      match env.commitResult with
      | some e =>
        { err := some (GoErr.traced e), db := db,
          trace := TxOp.txBegin :: (t ++ [TxOp.txCommit]),
          logs := ls ++ [LogEntry.commitFailed e] }
      | none =>
        { err := none, db := work,
          trace := TxOp.txBegin :: (t ++ [TxOp.txCommit]), logs := ls }

/-- `retryTimeout = 3 * time.Second`, modelled in seconds. -/
def retryTimeout : Nat := 3

/-- `defaultMaxRetry = 3`. -/
def defaultMaxRetry : Nat := 3

/-- Terminal result of `ExecWithRetry`: `fatal e` models
`errors.Trace(err)` on a non-retryable error; `exhausted sqls last`
models the `errors.Errorf` built after the loop, whose message includes
the batch and the text of the last observed error. -/
inductive ExecError where
  | fatal (e : GoErr) : ExecError
  | exhausted (sqls : List String) (last : Option GoErr) : ExecError
deriving DecidableEq

/-- Result of one call to `ExecWithRetry`: outcome (`none` = success),
committed database state, transaction operations, backoff sleep
durations in seconds, and the number of attempts (calls to
`executeSQLImp`) made. -/
structure ExecResult (sigma : Type) where
  res : Option ExecError
  db : sigma
  trace : List TxOp
  sleeps : List Nat
  attempts : Nat

/-- The `for i := 0; i < maxRetry; i++` loop of `ExecWithRetry`, with
`fuel` remaining iterations and `i` the current iteration index: sleep
`retryTimeout` before every attempt but the first, run `executeSQLImp`,
return success immediately on success, return the traced error on a
non-retryable error, continue on a retryable one, and build the
exhaustion error from the last observed error once the fuel runs out. -/
def execAttempts {sigma : Type} (envs : Nat → AttemptEnv sigma) (sqls : List String) :
    Nat → Nat → sigma → Option GoErr → ExecResult sigma
  | 0, _, db, lastErr =>
    { res := some (ExecError.exhausted sqls lastErr), db := db,
      trace := [], sleeps := [], attempts := 0 }
  | fuel + 1, i, db, _ =>
    let pre : List Nat := if 0 < i then [retryTimeout] else []
    let r := executeSQLImp (envs i) db sqls
    match r.err with
    | none =>
      { res := none, db := r.db, trace := r.trace, sleeps := pre, attempts := 1 }
    | some e =>
      if isRetryableError e then
        let rest := execAttempts envs sqls fuel (i + 1) r.db (some e)
        { res := rest.res, db := rest.db, trace := r.trace ++ rest.trace,
          sleeps := pre ++ rest.sleeps, attempts := rest.attempts + 1 }
      else
        { res := some (ExecError.fatal (GoErr.traced e)), db := r.db,
          trace := r.trace, sleeps := pre, attempts := 1 }

/-- Model of `ExecWithRetry`: an empty batch returns success immediately
with no transaction activity; otherwise run the retry loop with
`defaultMaxRetry` iterations. -/
def ExecWithRetry {sigma : Type} (envs : Nat → AttemptEnv sigma) (db : sigma)
    (sqls : List String) : ExecResult sigma :=
  if sqls.length = 0 then
    { res := none, db := db, trace := [], sleeps := [], attempts := 0 }
  else
    execAttempts envs sqls defaultMaxRetry 0 db none

/-- Terminal result of `QueryRowWithRetry`: `fatal e` models
`errors.Trace(err)` on a non-retryable error; `exhausted query` models
the `errors.Errorf` built after the loop, whose message names only the
query — it does not carry the last observed error. -/
inductive QueryError where
  | fatal (e : GoErr) : QueryError
  | exhausted (query : String) : QueryError
deriving DecidableEq

/-- Result of one call to `QueryRowWithRetry`: outcome (`none` =
success), backoff sleep durations in seconds, and the number of attempts
(calls to `QueryRowContext(...).Scan(...)`) made. -/
structure QueryResult where
  res : Option QueryError
  sleeps : List Nat
  attempts : Nat
deriving DecidableEq

/-- The retry loop of `QueryRowWithRetry`, driven by the per-attempt
oracle `qenvs` (`qenvs i = none` means attempt `i` scans successfully):
sleep before every attempt but the first, return success immediately on
success, return the traced error on a non-retryable error, continue on a
retryable one, and return the generic exhaustion error once the fuel
runs out. -/
def queryAttempts (qenvs : Nat → Option GoErr) (query : String) :
    Nat → Nat → QueryResult
  | 0, _ => { res := some (QueryError.exhausted query), sleeps := [], attempts := 0 }
  | fuel + 1, i =>
    let pre : List Nat := if 0 < i then [retryTimeout] else []
    match qenvs i with
    | none => { res := none, sleeps := pre, attempts := 1 }
    | some e =>
      if isRetryableError e then
        let rest := queryAttempts qenvs query fuel (i + 1)
        { res := rest.res, sleeps := pre ++ rest.sleeps, attempts := rest.attempts + 1 }
      else
        { res := some (QueryError.fatal (GoErr.traced e)), sleeps := pre, attempts := 1 }

/-- Model of `QueryRowWithRetry`: the retry loop with `defaultMaxRetry`
iterations (there is no empty-input short-circuit on this path). -/
def QueryRowWithRetry (qenvs : Nat → Option GoErr) (query : String) : QueryResult :=
  queryAttempts qenvs query defaultMaxRetry 0

/-! ### Helper lemmas -/

/-- `errors.Trace` preserves the root cause. -/
lemma cause_traced (e : GoErr) : cause (GoErr.traced e) = cause e := rfl

/-- The classifier inspects only the root cause. -/
lemma isRetryableError_eq_root (e : GoErr) :
    isRetryableError e = isRetryableRoot (cause e) := rfl

/-- Classification is unchanged by one `errors.Trace` layer. -/
lemma isRetryableError_traced (e : GoErr) :
    isRetryableError (GoErr.traced e) = isRetryableError e := rfl

/-- When statements `start .. start+k-1` succeed and statement `start+k`
fails with `e`, the statement loop returns `e`, issues the executed
statements followed by a rollback, and logs the statement failure and
then the rollback failure (when the rollback fails too). -/
lemma runStmts_fail_at {sigma : Type} (env : AttemptEnv sigma) (sqls : List String) :
    ∀ (start k : Nat) (work : sigma) (e : GoErr) (hk : k < sqls.length),
      (∀ j, j < k → ∃ f, env.stmtResult (start + j) = StmtResult.ok f) →
      env.stmtResult (start + k) = StmtResult.fail e →
      runStmts env sqls start work =
        (Sum.inr e,
         (sqls.take (k + 1)).map TxOp.execStmt ++ [TxOp.txRollback],
         (sqls.take k).map LogEntry.stmtDebug ++
           LogEntry.stmtDebug (sqls.get ⟨k, hk⟩) ::
           LogEntry.stmtFailed (sqls.get ⟨k, hk⟩) e ::
           rollbackLogs env (sqls.get ⟨k, hk⟩)) := by
  induction sqls with
  | nil =>
    intro start k work e hk
    exact absurd hk (by simp)
  | cons s rest ih =>
    intro start k work e hk hok hfail
    cases k with
    | zero =>
      have hs : env.stmtResult start = StmtResult.fail e := hfail
      simp [runStmts, hs]
    | succ k =>
      obtain ⟨f, hf⟩ := hok 0 (Nat.succ_pos k)
      have hs : env.stmtResult start = StmtResult.ok f := hf
      have hok' : ∀ j, j < k → ∃ g, env.stmtResult (start + 1 + j) = StmtResult.ok g := by
        intro j hj
        have := hok (j + 1) (Nat.succ_lt_succ hj)
        rwa [show start + (j + 1) = start + 1 + j by omega] at this
      have hfail' : env.stmtResult (start + 1 + k) = StmtResult.fail e := by
        rwa [show start + (k + 1) = start + 1 + k by omega] at hfail
      have hk' : k < rest.length := Nat.lt_of_succ_lt_succ hk
      simp only [runStmts, hs]
      rw [ih (start + 1) k (f work) e hk' hok' hfail']
      simp [List.take, List.get]

/-- When every statement succeeds, the statement loop returns a working
state, issues exactly the statements in order, and logs one debug entry
per statement. -/
lemma runStmts_all_ok {sigma : Type} (env : AttemptEnv sigma) (sqls : List String) :
    ∀ (start : Nat) (work : sigma),
      (∀ j, j < sqls.length → ∃ f, env.stmtResult (start + j) = StmtResult.ok f) →
      ∃ w, runStmts env sqls start work =
        (Sum.inl w, sqls.map TxOp.execStmt, sqls.map LogEntry.stmtDebug) := by
  induction sqls with
  | nil =>
    intro start work _
    exact ⟨work, rfl⟩
  | cons s rest ih =>
    intro start work hok
    obtain ⟨f, hf⟩ := hok 0 (Nat.succ_pos _)
    have hs : env.stmtResult start = StmtResult.ok f := hf
    have hok' : ∀ j, j < rest.length → ∃ g, env.stmtResult (start + 1 + j) = StmtResult.ok g := by
      intro j hj
      have := hok (j + 1) (Nat.succ_lt_succ hj)
      rwa [show start + (j + 1) = start + 1 + j by omega] at this
    obtain ⟨w, hw⟩ := ih (start + 1) (f work) hok'
    refine ⟨w, ?_⟩
    simp [runStmts, hs, hw]

/-- One attempt in which statement `k` is the first to fail: the
attempt returns the traced statement error, leaves the committed state
unchanged, and its transaction trace is begin, the first `k + 1`
statements, then a rollback; the statement failure and any rollback
failure are logged. -/
lemma executeSQLImp_fail_at {sigma : Type} (env : AttemptEnv sigma) (db : sigma)
    (sqls : List String) (k : Nat) (e : GoErr)
    (hb : env.beginResult = none) (hk : k < sqls.length)
    (hok : ∀ j, j < k → ∃ f, env.stmtResult j = StmtResult.ok f)
    (hfail : env.stmtResult k = StmtResult.fail e) :
    executeSQLImp env db sqls =
      { err := some (GoErr.traced e), db := db,
        trace := TxOp.txBegin :: ((sqls.take (k + 1)).map TxOp.execStmt ++ [TxOp.txRollback]),
        logs := (sqls.take k).map LogEntry.stmtDebug ++
          LogEntry.stmtDebug (sqls.get ⟨k, hk⟩) ::
          LogEntry.stmtFailed (sqls.get ⟨k, hk⟩) e ::
          rollbackLogs env (sqls.get ⟨k, hk⟩) } := by
  have h := runStmts_fail_at env sqls 0 k db e hk
    (fun j hj => by simpa using hok j hj) (by simpa using hfail)
  simp [executeSQLImp, hb, h]

/-- One attempt in which every statement succeeds and the commit fails:
the attempt returns the traced commit error, leaves the committed state
unchanged, and its trace is begin, all statements, then the commit. -/
lemma executeSQLImp_commit_fail {sigma : Type} (env : AttemptEnv sigma) (db : sigma)
    (sqls : List String) (e : GoErr)
    (hb : env.beginResult = none)
    (hok : ∀ j, j < sqls.length → ∃ f, env.stmtResult j = StmtResult.ok f)
    (hc : env.commitResult = some e) :
    executeSQLImp env db sqls =
      { err := some (GoErr.traced e), db := db,
        trace := TxOp.txBegin :: (sqls.map TxOp.execStmt ++ [TxOp.txCommit]),
        logs := sqls.map LogEntry.stmtDebug ++ [LogEntry.commitFailed e] } := by
  obtain ⟨w, hw⟩ := runStmts_all_ok env sqls 0 db (fun j hj => by simpa using hok j hj)
  simp [executeSQLImp, hb, hw, hc]

/-- An attempt that returns an error never changes the committed state:
effects are published only by a successful commit. -/
lemma executeSQLImp_err_db {sigma : Type} (env : AttemptEnv sigma) (db : sigma)
    (sqls : List String) (e : GoErr)
    (h : (executeSQLImp env db sqls).err = some e) :
    (executeSQLImp env db sqls).db = db := by
  unfold executeSQLImp at *
  cases hb : env.beginResult with
  | some e0 => simp [hb]
  | none =>
    rcases hr : runStmts env sqls 0 db with ⟨r, t, ls⟩
    cases r with
    | inr e0 => simp [hb, hr]
    | inl w =>
      cases hc : env.commitResult with
      | some e0 => simp [hb, hr, hc]
      | none => simp [hb, hr, hc] at h

/-- Unfolding one loop iteration of `ExecWithRetry` whose attempt fails
with a retryable error: the loop continues with one more attempt
recorded. -/
lemma execAttempts_retry_step {sigma : Type} (envs : Nat → AttemptEnv sigma)
    (sqls : List String) (fuel i : Nat) (db : sigma) (lastErr : Option GoErr) (e : GoErr)
    (he : (executeSQLImp (envs i) db sqls).err = some e)
    (hre : isRetryableError e = true) :
    execAttempts envs sqls (fuel + 1) i db lastErr =
      { res := (execAttempts envs sqls fuel (i + 1) (executeSQLImp (envs i) db sqls).db (some e)).res
      , db := (execAttempts envs sqls fuel (i + 1) (executeSQLImp (envs i) db sqls).db (some e)).db
      , trace := (executeSQLImp (envs i) db sqls).trace ++
          (execAttempts envs sqls fuel (i + 1) (executeSQLImp (envs i) db sqls).db (some e)).trace
      , sleeps := (if 0 < i then [retryTimeout] else []) ++
          (execAttempts envs sqls fuel (i + 1) (executeSQLImp (envs i) db sqls).db (some e)).sleeps
      , attempts := (execAttempts envs sqls fuel (i + 1) (executeSQLImp (envs i) db sqls).db (some e)).attempts + 1 } := by
  simp only [execAttempts, he, hre, if_true]

/-- Unfolding one loop iteration of `ExecWithRetry` whose attempt fails
with a non-retryable error: the loop returns the traced error at once. -/
lemma execAttempts_fatal_step {sigma : Type} (envs : Nat → AttemptEnv sigma)
    (sqls : List String) (fuel i : Nat) (db : sigma) (lastErr : Option GoErr) (e : GoErr)
    (he : (executeSQLImp (envs i) db sqls).err = some e)
    (hre : isRetryableError e = false) :
    execAttempts envs sqls (fuel + 1) i db lastErr =
      { res := some (ExecError.fatal (GoErr.traced e))
      , db := (executeSQLImp (envs i) db sqls).db
      , trace := (executeSQLImp (envs i) db sqls).trace
      , sleeps := if 0 < i then [retryTimeout] else []
      , attempts := 1 } := by
  simp [execAttempts, he, hre]

/-- The attempts component of a retried iteration. -/
lemma execAttempts_retry_attempts {sigma : Type} (envs : Nat → AttemptEnv sigma)
    (sqls : List String) (fuel i : Nat) (db : sigma) (lastErr : Option GoErr) (e : GoErr)
    (he : (executeSQLImp (envs i) db sqls).err = some e)
    (hre : isRetryableError e = true) :
    (execAttempts envs sqls (fuel + 1) i db lastErr).attempts =
      (execAttempts envs sqls fuel (i + 1) (executeSQLImp (envs i) db sqls).db (some e)).attempts + 1 := by
  rw [execAttempts_retry_step envs sqls fuel i db lastErr e he hre]

/-- A loop with fuel left makes at least one attempt. -/
lemma execAttempts_attempts_pos {sigma : Type} (envs : Nat → AttemptEnv sigma)
    (sqls : List String) (fuel i : Nat) (db : sigma) (lastErr : Option GoErr)
    (hf : 0 < fuel) :
    0 < (execAttempts envs sqls fuel i db lastErr).attempts := by
  cases fuel with
  | zero => exact absurd hf (by simp)
  | succ fuel =>
    cases he : (executeSQLImp (envs i) db sqls).err with
    | none => simp [execAttempts, he]
    | some e =>
      cases hre : isRetryableError e with
      | true =>
        rw [execAttempts_retry_attempts envs sqls fuel i db lastErr e he hre]
        exact Nat.succ_pos _
      | false =>
        rw [execAttempts_fatal_step envs sqls fuel i db lastErr e he hre]
        exact Nat.one_pos

/-- If the loop returns an error, the committed database state is the
state it started from: no partial effects survive a failed call. -/
lemma execAttempts_res_db {sigma : Type} (envs : Nat → AttemptEnv sigma) (sqls : List String) :
    ∀ (fuel i : Nat) (db : sigma) (lastErr : Option GoErr) (r : ExecError),
      (execAttempts envs sqls fuel i db lastErr).res = some r →
      (execAttempts envs sqls fuel i db lastErr).db = db := by
  intro fuel
  induction fuel with
  | zero => intro i db lastErr r _; rfl
  | succ fuel ih =>
    intro i db lastErr r hres
    cases he : (executeSQLImp (envs i) db sqls).err with
    | none => simp [execAttempts, he] at hres
    | some e =>
      have hdb : (executeSQLImp (envs i) db sqls).db = db :=
        executeSQLImp_err_db (envs i) db sqls e he
      cases hre : isRetryableError e with
      | true =>
        rw [execAttempts_retry_step envs sqls fuel i db lastErr e he hre, hdb] at hres ⊢
        exact ih (i + 1) db (some e) r hres
      | false =>
        rw [execAttempts_fatal_step envs sqls fuel i db lastErr e he hre]
        exact hdb

/-- When every remaining attempt fails with a retryable error, the loop
exhausts its fuel: it makes exactly `fuel` attempts, sleeps before every
attempt except a first attempt at index 0, leaves the database
unchanged, and returns the exhaustion error built from the last attempt
error. -/
lemma execAttempts_all_transient {sigma : Type} (envs : Nat → AttemptEnv sigma)
    (sqls : List String) :
    ∀ (fuel i : Nat) (db : sigma) (lastErr : Option GoErr),
      0 < fuel →
      (∀ j, j < fuel → ∃ e, (executeSQLImp (envs (i + j)) db sqls).err = some e ∧
        isRetryableError e = true) →
      ∃ e, (executeSQLImp (envs (i + (fuel - 1))) db sqls).err = some e ∧
        (execAttempts envs sqls fuel i db lastErr).res =
          some (ExecError.exhausted sqls (some e)) ∧
        (execAttempts envs sqls fuel i db lastErr).db = db ∧
        (execAttempts envs sqls fuel i db lastErr).sleeps =
          List.replicate (if i = 0 then fuel - 1 else fuel) retryTimeout ∧
        (execAttempts envs sqls fuel i db lastErr).attempts = fuel := by
  intro fuel
  induction fuel with
  | zero => intro i db lastErr h; exact absurd h (by simp)
  | succ fuel ih =>
    intro i db lastErr _ hall
    obtain ⟨e0, he0, hre0⟩ := hall 0 (Nat.succ_pos _)
    rw [Nat.add_zero] at he0
    have hdb : (executeSQLImp (envs i) db sqls).db = db :=
      executeSQLImp_err_db (envs i) db sqls e0 he0
    rw [execAttempts_retry_step envs sqls fuel i db lastErr e0 he0 hre0, hdb]
    cases fuel with
    | zero =>
      refine ⟨e0, by simpa using he0, rfl, rfl, ?_, rfl⟩
      rcases Nat.eq_zero_or_pos i with hi | hi
      · simp [execAttempts, hi]
      · simp [execAttempts, Nat.pos_iff_ne_zero.mp hi, hi]
    | succ fuel =>
      have hall' : ∀ j, j < fuel + 1 →
          ∃ e, (executeSQLImp (envs (i + 1 + j)) db sqls).err = some e ∧
            isRetryableError e = true := by
        intro j hj
        have := hall (j + 1) (Nat.succ_lt_succ hj)
        rwa [show i + (j + 1) = i + 1 + j by omega] at this
      obtain ⟨e, he, hres, hdb', hsleeps, hatt⟩ :=
        ih (i + 1) db (some e0) (Nat.succ_pos _) hall'
      refine ⟨e, ?_, ?_, ?_, ?_, ?_⟩
      · rwa [show i + 1 + (fuel + 1 - 1) = i + (fuel + 1 + 1 - 1) by omega] at he
      · simpa using hres
      · simpa using hdb'
      · have hne : ¬ (i + 1 = 0) := Nat.succ_ne_zero i
        simp only [hne, if_false] at hsleeps
        rcases Nat.eq_zero_or_pos i with hi | hi
        · subst hi; simpa using hsleeps
        · have hi' : ¬ (i = 0) := Nat.pos_iff_ne_zero.mp hi
          simp [hi, hi', hsleeps, List.replicate_succ]
      · simpa using hatt

/-- Unfolding one loop iteration of `QueryRowWithRetry` whose attempt
fails with a retryable error. -/
lemma queryAttempts_retry_step (qenvs : Nat → Option GoErr) (query : String)
    (fuel i : Nat) (e : GoErr)
    (he : qenvs i = some e) (hre : isRetryableError e = true) :
    queryAttempts qenvs query (fuel + 1) i =
      { res := (queryAttempts qenvs query fuel (i + 1)).res
      , sleeps := (if 0 < i then [retryTimeout] else []) ++
          (queryAttempts qenvs query fuel (i + 1)).sleeps
      , attempts := (queryAttempts qenvs query fuel (i + 1)).attempts + 1 } := by
  simp only [queryAttempts, he, hre, if_true]

/-- Unfolding one loop iteration of `QueryRowWithRetry` whose attempt
fails with a non-retryable error. -/
lemma queryAttempts_fatal_step (qenvs : Nat → Option GoErr) (query : String)
    (fuel i : Nat) (e : GoErr)
    (he : qenvs i = some e) (hre : isRetryableError e = false) :
    queryAttempts qenvs query (fuel + 1) i =
      { res := some (QueryError.fatal (GoErr.traced e))
      , sleeps := if 0 < i then [retryTimeout] else []
      , attempts := 1 } := by
  simp [queryAttempts, he, hre]

/-- When every remaining attempt fails with a retryable error, the query
loop exhausts its fuel with the generic exhaustion error, making exactly
`fuel` attempts with the expected sleeps. -/
lemma queryAttempts_all_transient (qenvs : Nat → Option GoErr) (query : String) :
    ∀ (fuel i : Nat),
      (∀ j, j < fuel → ∃ e, qenvs (i + j) = some e ∧ isRetryableError e = true) →
      (queryAttempts qenvs query fuel i).res = some (QueryError.exhausted query) ∧
      (queryAttempts qenvs query fuel i).sleeps =
        List.replicate (if i = 0 then fuel - 1 else fuel) retryTimeout ∧
      (queryAttempts qenvs query fuel i).attempts = fuel := by
  intro fuel
  induction fuel with
  | zero =>
    intro i _
    refine ⟨rfl, ?_, rfl⟩
    rcases Nat.eq_zero_or_pos i with hi | hi
    · simp [queryAttempts, hi]
    · simp [queryAttempts, hi]
  | succ fuel ih =>
    intro i hall
    obtain ⟨e0, he0, hre0⟩ := hall 0 (Nat.succ_pos _)
    rw [Nat.add_zero] at he0
    rw [queryAttempts_retry_step qenvs query fuel i e0 he0 hre0]
    cases fuel with
    | zero =>
      refine ⟨rfl, ?_, rfl⟩
      rcases Nat.eq_zero_or_pos i with hi | hi
      · simp [queryAttempts, hi]
      · simp [queryAttempts, Nat.pos_iff_ne_zero.mp hi, hi]
    | succ fuel =>
      have hall' : ∀ j, j < fuel + 1 →
          ∃ e, qenvs (i + 1 + j) = some e ∧ isRetryableError e = true := by
        intro j hj
        have := hall (j + 1) (Nat.succ_lt_succ hj)
        rwa [show i + (j + 1) = i + 1 + j by omega] at this
      obtain ⟨hres, hsleeps, hatt⟩ := ih (i + 1) hall'
      refine ⟨by simpa using hres, ?_, by simpa using hatt⟩
      have hne : ¬ (i + 1 = 0) := Nat.succ_ne_zero i
      simp only [hne, if_false] at hsleeps
      rcases Nat.eq_zero_or_pos i with hi | hi
      · subst hi; simpa using hsleeps
      · have hi' : ¬ (i = 0) := Nat.pos_iff_ne_zero.mp hi
        simp [hi, hi', hsleeps, List.replicate_succ]

/-- On a non-empty batch, `ExecWithRetry` runs the retry loop with
`defaultMaxRetry` iterations starting at index 0. -/
lemma ExecWithRetry_of_ne_nil {sigma : Type} (envs : Nat → AttemptEnv sigma) (db : sigma)
    (sqls : List String) (hne : sqls ≠ []) :
    ExecWithRetry envs db sqls = execAttempts envs sqls defaultMaxRetry 0 db none := by
  have h0 : ¬ sqls.length = 0 := fun h => hne (List.length_eq_zero.mp h)
  simp [ExecWithRetry, h0]

/-! ### Concrete inputs used by the witnesses -/

/-- MySQL code 1062 (duplicate key) is not in the transient switch list,
so a backend error carrying it is classified Fatal. -/
def dupKeyErr : GoErr := GoErr.mysqlErr 1062

/-- A backend deadlock error, classified Transient. -/
def deadlockErr : GoErr := GoErr.mysqlErr ErrLockDeadlock

/-- Oracle where statement index 1 fails with a Fatal error and every
other transaction primitive succeeds. -/
def envStmt2Fails : AttemptEnv Nat :=
  { beginResult := none
  , stmtResult := fun j => if j = 0 then StmtResult.ok (fun s => s + 1) else StmtResult.fail dupKeyErr
  , commitResult := none
  , rollbackResult := none }

/-- Oracle where the first statement always fails with a Transient
deadlock error. -/
def envAllFailTransient : AttemptEnv Nat :=
  { beginResult := none
  , stmtResult := fun _ => StmtResult.fail deadlockErr
  , commitResult := none
  , rollbackResult := none }

/-- Oracle where every statement succeeds and the commit fails with the
given error. -/
def envCommitFails (e : GoErr) : AttemptEnv Nat :=
  { beginResult := none
  , stmtResult := fun _ => StmtResult.ok id
  , commitResult := some e
  , rollbackResult := none }

/-- Oracle where the first statement fails with a Fatal error and the
subsequent rollback also fails. -/
def envRollbackAlsoFails : AttemptEnv Nat :=
  { beginResult := none
  , stmtResult := fun _ => StmtResult.fail dupKeyErr
  , commitResult := none
  , rollbackResult := some (GoErr.other 7) }

/-! ### Claim theorems: classifier -/

/-- Claim C4: the classifier maps the bad-connection sentinel to
Transient, a network error reporting timeout to Transient, a network
error reporting non-timeout to Fatal, the backend lock-deadlock code to
Transient, any backend code outside the recognized transient set to
Fatal, and any error matching none of the recognized shapes to Transient
by default (`true` = Transient, `false` = Fatal). -/
theorem classifier_table (n t : Nat) (hn : n ∉ knownTransientCodes) :
    isRetryableError GoErr.badConn = true ∧
    isRetryableError (GoErr.netErr true) = true ∧
    isRetryableError (GoErr.netErr false) = false ∧
    isRetryableError (GoErr.mysqlErr ErrLockDeadlock) = true ∧
    isRetryableError (GoErr.mysqlErr n) = false ∧
    isRetryableError (GoErr.other t) = true := by
  refine ⟨rfl, rfl, rfl, by decide, ?_, rfl⟩
  simp [isRetryableError, cause, isRetryableRoot, hn]

/-- Witness for C4 at the concrete unrecognized code 1062. -/
theorem classifier_table_witness :
    isRetryableError GoErr.badConn = true ∧
    isRetryableError (GoErr.netErr true) = true ∧
    isRetryableError (GoErr.netErr false) = false ∧
    isRetryableError (GoErr.mysqlErr ErrLockDeadlock) = true ∧
    isRetryableError (GoErr.mysqlErr 1062) = false ∧
    isRetryableError (GoErr.other 0) = true :=
  classifier_table 1062 0 (by decide)

/-- Claim C6: a backend protocol error carrying numeric code `n` is
classified Transient exactly when `n` is in the closed switch list
{ErrUnknown, ErrLockDeadlock, ErrPDServerTimeout, ErrTiKVServerTimeout,
ErrTiKVServerBusy, ErrResolveLockTimeout, ErrRegionUnavailable} (the
spec name "server-timeout" covers both server-timeout codes), and Fatal
for every other code. -/
theorem mysql_code_closed_set (n : Nat) :
    (isRetryableError (GoErr.mysqlErr n) = true ↔ n ∈ knownTransientCodes) ∧
    knownTransientCodes = [1105, 1213, 9001, 9002, 9003, 9004, 9005] := by
  constructor
  · simp [isRetryableError, cause, isRetryableRoot]
  · rfl

/-- Claim C10: classification is invariant under error wrapping — any
wrapper `w` of `e` with the same root cause (in particular one produced
by `errors.Trace`) is classified exactly like `e`, because the
classifier first unwraps to the root cause. -/
theorem classification_wrap_invariant (e w : GoErr) (h : cause w = cause e) :
    isRetryableError w = isRetryableError e ∧
    isRetryableError (GoErr.traced e) = isRetryableError e := by
  constructor
  · rw [isRetryableError_eq_root, isRetryableError_eq_root, h]
  · exact isRetryableError_traced e

/-- Witness for C10: a doubly traced bad-connection sentinel is
classified like the sentinel itself. -/
theorem classification_wrap_invariant_witness :
    isRetryableError (GoErr.traced (GoErr.traced GoErr.badConn)) = isRetryableError GoErr.badConn ∧
    isRetryableError (GoErr.traced GoErr.badConn) = isRetryableError GoErr.badConn :=
  classification_wrap_invariant GoErr.badConn (GoErr.traced (GoErr.traced GoErr.badConn)) rfl

/-- Claim C9: on the empty batch, `ExecWithRetry` returns success
immediately with no transaction operations, no sleeps, no attempts, and
an unchanged database state. -/
theorem empty_batch_noop {sigma : Type} (envs : Nat → AttemptEnv sigma) (db : sigma) :
    ExecWithRetry envs db [] =
      { res := none, db := db, trace := [], sleeps := [], attempts := 0 } := rfl

/-! ### Claim theorems: executor and querier -/

/-- Claim C1: when statement `k` (0-indexed here; the claim counts
1-indexed) fails during an attempt on a non-empty batch, that attempt
returns the traced statement error, leaves the committed state
unchanged, and its transaction trace is begin, the executed statements,
then a rollback — the rollback precedes the error report; and whenever
`ExecWithRetry` returns any error, the committed state equals the
initial one, so a batch's effects are visible only if every statement
succeeded and the transaction committed. -/
theorem batch_atomicity {sigma : Type} (envs : Nat → AttemptEnv sigma) (db : sigma)
    (sqls : List String) (i k : Nat) (e : GoErr) (r : ExecError)
    (hb : (envs i).beginResult = none)
    (hk : k < sqls.length)
    (hok : ∀ j, j < k → ∃ f, (envs i).stmtResult j = StmtResult.ok f)
    (hfail : (envs i).stmtResult k = StmtResult.fail e)
    (hres : (ExecWithRetry envs db sqls).res = some r) :
    (executeSQLImp (envs i) db sqls).err = some (GoErr.traced e) ∧
    (executeSQLImp (envs i) db sqls).db = db ∧
    (executeSQLImp (envs i) db sqls).trace =
      TxOp.txBegin :: ((sqls.take (k + 1)).map TxOp.execStmt ++ [TxOp.txRollback]) ∧
    (ExecWithRetry envs db sqls).db = db := by
  have h := executeSQLImp_fail_at (envs i) db sqls k e hb hk hok hfail
  refine ⟨by rw [h], by rw [h], by rw [h], ?_⟩
  by_cases hnil : sqls = []
  · exact absurd hk (by simp [hnil])
  · rw [ExecWithRetry_of_ne_nil envs db sqls hnil] at hres ⊢
    exact execAttempts_res_db envs sqls defaultMaxRetry 0 db none r hres

/-- Witness for C1: a two-statement batch whose second statement fails
with a duplicate-key error. -/
theorem batch_atomicity_witness :
    (executeSQLImp envStmt2Fails 5 ["s1", "s2"]).err = some (GoErr.traced dupKeyErr) ∧
    (executeSQLImp envStmt2Fails 5 ["s1", "s2"]).db = 5 ∧
    (executeSQLImp envStmt2Fails 5 ["s1", "s2"]).trace =
      TxOp.txBegin :: (((["s1", "s2"] : List String).take 2).map TxOp.execStmt ++
        [TxOp.txRollback]) ∧
    (ExecWithRetry (fun _ => envStmt2Fails) 5 ["s1", "s2"]).db = 5 :=
  batch_atomicity (fun _ => envStmt2Fails) 5 ["s1", "s2"] 0 1 dupKeyErr
    (ExecError.fatal (GoErr.traced (GoErr.traced dupKeyErr)))
    rfl (by decide)
    (by intro j hj; interval_cases j; exact ⟨fun s => s + 1, rfl⟩)
    rfl (by decide)

/-- Claim C5: when a statement fails and the subsequent rollback also
fails, the error returned by the attempt is the traced original
statement error — never the rollback error — and the rollback failure
appears in the log. -/
theorem rollback_error_only_logged {sigma : Type} (env : AttemptEnv sigma) (db : sigma)
    (sqls : List String) (k : Nat) (e rerr : GoErr)
    (hb : env.beginResult = none) (hk : k < sqls.length)
    (hok : ∀ j, j < k → ∃ f, env.stmtResult j = StmtResult.ok f)
    (hfail : env.stmtResult k = StmtResult.fail e)
    (hr : env.rollbackResult = some rerr) :
    (executeSQLImp env db sqls).err = some (GoErr.traced e) ∧
    LogEntry.rollbackFailed (sqls.get ⟨k, hk⟩) rerr ∈ (executeSQLImp env db sqls).logs := by
  have h := executeSQLImp_fail_at env db sqls k e hb hk hok hfail
  rw [h]
  exact ⟨rfl, by simp [rollbackLogs, hr]⟩

/-- Witness for C5: a failing statement whose rollback also fails. -/
theorem rollback_error_only_logged_witness :
    (executeSQLImp envRollbackAlsoFails 5 ["s1"]).err = some (GoErr.traced dupKeyErr) ∧
    LogEntry.rollbackFailed "s1" (GoErr.other 7) ∈
      (executeSQLImp envRollbackAlsoFails 5 ["s1"]).logs :=
  rollback_error_only_logged envRollbackAlsoFails 5 ["s1"] 0 dupKeyErr (GoErr.other 7)
    rfl (by decide) (fun j hj => absurd hj (Nat.not_lt_zero j)) rfl rfl

/-- Claim C2: when the first attempt fails with a Fatal-classified
error, both the batch executor and the row querier make exactly one
attempt, perform no backoff sleep, and return immediately with the
wrapped cause. -/
theorem fatal_single_attempt {sigma : Type} (envs : Nat → AttemptEnv sigma) (db : sigma)
    (sqls : List String) (qenvs : Nat → Option GoErr) (query : String) (e1 e2 : GoErr)
    (hne : sqls ≠ [])
    (he : (executeSQLImp (envs 0) db sqls).err = some e1)
    (hf : isRetryableError e1 = false)
    (hqe : qenvs 0 = some e2)
    (hqf : isRetryableError e2 = false) :
    (ExecWithRetry envs db sqls).res = some (ExecError.fatal (GoErr.traced e1)) ∧
    (ExecWithRetry envs db sqls).attempts = 1 ∧
    (ExecWithRetry envs db sqls).sleeps = [] ∧
    (QueryRowWithRetry qenvs query).res = some (QueryError.fatal (GoErr.traced e2)) ∧
    (QueryRowWithRetry qenvs query).attempts = 1 ∧
    (QueryRowWithRetry qenvs query).sleeps = [] := by
  rw [ExecWithRetry_of_ne_nil envs db sqls hne,
      show defaultMaxRetry = 2 + 1 from rfl,
      execAttempts_fatal_step envs sqls 2 0 db none e1 he hf,
      QueryRowWithRetry,
      show defaultMaxRetry = 2 + 1 from rfl,
      queryAttempts_fatal_step qenvs query 2 0 e2 hqe hqf]
  simp

/-- Witness for C2: a fatal duplicate-key error on the first attempt of
both paths. -/
theorem fatal_single_attempt_witness :
    (ExecWithRetry (fun _ => envStmt2Fails) 5 ["s1", "s2"]).res =
      some (ExecError.fatal (GoErr.traced (GoErr.traced dupKeyErr))) ∧
    (ExecWithRetry (fun _ => envStmt2Fails) 5 ["s1", "s2"]).attempts = 1 ∧
    (ExecWithRetry (fun _ => envStmt2Fails) 5 ["s1", "s2"]).sleeps = [] ∧
    (QueryRowWithRetry (fun _ => some dupKeyErr) "q").res =
      some (QueryError.fatal (GoErr.traced dupKeyErr)) ∧
    (QueryRowWithRetry (fun _ => some dupKeyErr) "q").attempts = 1 ∧
    (QueryRowWithRetry (fun _ => some dupKeyErr) "q").sleeps = [] :=
  fatal_single_attempt (fun _ => envStmt2Fails) 5 ["s1", "s2"] (fun _ => some dupKeyErr) "q"
    (GoErr.traced dupKeyErr) dupKeyErr (by decide) (by decide) (by decide) rfl (by decide)

/-- Claim C3: when every attempt on a non-empty batch fails with a
Transient-classified error, the retry loop makes exactly
`defaultMaxRetry = 3` attempts with exactly two backoff sleeps of
`retryTimeout = 3` seconds between them, and then returns the terminal
exhaustion error instead of attempting again. -/
theorem transient_retry_bound {sigma : Type} (envs : Nat → AttemptEnv sigma) (db : sigma)
    (sqls : List String)
    (hne : sqls ≠ [])
    (hall : ∀ i, i < defaultMaxRetry →
      ∃ e, (executeSQLImp (envs i) db sqls).err = some e ∧ isRetryableError e = true) :
    (ExecWithRetry envs db sqls).attempts = defaultMaxRetry ∧
    (ExecWithRetry envs db sqls).sleeps =
      List.replicate (defaultMaxRetry - 1) retryTimeout ∧
    defaultMaxRetry = 3 ∧ retryTimeout = 3 ∧
    (executeSQLImp (envs (defaultMaxRetry - 1)) db sqls).err.isSome = true ∧
    (ExecWithRetry envs db sqls).res =
      some (ExecError.exhausted sqls
        ((executeSQLImp (envs (defaultMaxRetry - 1)) db sqls).err)) := by
  rw [ExecWithRetry_of_ne_nil envs db sqls hne]
  obtain ⟨e, he, hres, hdb, hsleeps, hatt⟩ :=
    execAttempts_all_transient envs sqls defaultMaxRetry 0 db none (by decide)
      (fun j hj => by simpa using hall j hj)
  rw [Nat.zero_add] at he
  refine ⟨hatt, by simpa using hsleeps, rfl, rfl, by rw [he]; rfl, by rw [he]; exact hres⟩

/-- Witness for C3: a batch whose only statement hits a deadlock on
every attempt. -/
theorem transient_retry_bound_witness :
    (ExecWithRetry (fun _ => envAllFailTransient) 5 ["s1"]).attempts = defaultMaxRetry ∧
    (ExecWithRetry (fun _ => envAllFailTransient) 5 ["s1"]).sleeps =
      List.replicate (defaultMaxRetry - 1) retryTimeout ∧
    defaultMaxRetry = 3 ∧ retryTimeout = 3 ∧
    (executeSQLImp envAllFailTransient 5 ["s1"]).err.isSome = true ∧
    (ExecWithRetry (fun _ => envAllFailTransient) 5 ["s1"]).res =
      some (ExecError.exhausted ["s1"]
        ((executeSQLImp envAllFailTransient 5 ["s1"]).err)) :=
  transient_retry_bound (fun _ => envAllFailTransient) 5 ["s1"] (by decide)
    (fun _ _ => ⟨GoErr.traced deadlockErr, rfl, by decide⟩)

/-- Claim C7: on exhaustion the batch executor returns a terminal error
carrying the batch and the last observed cause, while the row querier
returns a terminal error naming only the query — its error type
(`QueryError.exhausted`) has no field for the underlying cause. -/
theorem exhaustion_error_shapes {sigma : Type} (envs : Nat → AttemptEnv sigma) (db : sigma)
    (sqls : List String) (qenvs : Nat → Option GoErr) (query : String)
    (hne : sqls ≠ [])
    (hall : ∀ i, i < defaultMaxRetry →
      ∃ e, (executeSQLImp (envs i) db sqls).err = some e ∧ isRetryableError e = true)
    (hqall : ∀ i, i < defaultMaxRetry →
      ∃ e, qenvs i = some e ∧ isRetryableError e = true) :
    (executeSQLImp (envs (defaultMaxRetry - 1)) db sqls).err.isSome = true ∧
    (ExecWithRetry envs db sqls).res =
      some (ExecError.exhausted sqls
        ((executeSQLImp (envs (defaultMaxRetry - 1)) db sqls).err)) ∧
    (QueryRowWithRetry qenvs query).res = some (QueryError.exhausted query) := by
  rw [ExecWithRetry_of_ne_nil envs db sqls hne]
  obtain ⟨e, he, hres, hdb, hsleeps, hatt⟩ :=
    execAttempts_all_transient envs sqls defaultMaxRetry 0 db none (by decide)
      (fun j hj => by simpa using hall j hj)
  rw [Nat.zero_add] at he
  obtain ⟨hqres, _, _⟩ :=
    queryAttempts_all_transient qenvs query defaultMaxRetry 0
      (fun j hj => by simpa using hqall j hj)
  exact ⟨by rw [he]; rfl, by rw [he]; exact hres, hqres⟩

/-- Witness for C7: deadlock errors on every attempt of both paths. -/
theorem exhaustion_error_shapes_witness :
    (executeSQLImp envAllFailTransient 6 ["s2"]).err.isSome = true ∧
    (ExecWithRetry (fun _ => envAllFailTransient) 6 ["s2"]).res =
      some (ExecError.exhausted ["s2"]
        ((executeSQLImp envAllFailTransient 6 ["s2"]).err)) ∧
    (QueryRowWithRetry (fun _ => some deadlockErr) "q2").res =
      some (QueryError.exhausted "q2") :=
  exhaustion_error_shapes (fun _ => envAllFailTransient) 6 ["s2"]
    (fun _ => some deadlockErr) "q2" (by decide)
    (fun _ _ => ⟨GoErr.traced deadlockErr, rfl, by decide⟩)
    (fun _ _ => ⟨deadlockErr, rfl, by decide⟩)

/-- Claim C8: a commit failure is classified and retried exactly like
any other attempt failure — when every statement succeeds and the commit
fails, the attempt returns the traced commit error; a Transient commit
error leads to at least one further whole-batch attempt, and a Fatal
commit error returns immediately after exactly one attempt. -/
theorem commit_failure_classified {sigma : Type} (envsT envsF : Nat → AttemptEnv sigma)
    (db : sigma) (sqls : List String) (et ef : GoErr)
    (hne : sqls ≠ [])
    (hbT : (envsT 0).beginResult = none)
    (hokT : ∀ j, j < sqls.length → ∃ f, (envsT 0).stmtResult j = StmtResult.ok f)
    (hcT : (envsT 0).commitResult = some et)
    (hT : isRetryableError et = true)
    (hbF : (envsF 0).beginResult = none)
    (hokF : ∀ j, j < sqls.length → ∃ f, (envsF 0).stmtResult j = StmtResult.ok f)
    (hcF : (envsF 0).commitResult = some ef)
    (hF : isRetryableError ef = false) :
    (executeSQLImp (envsT 0) db sqls).err = some (GoErr.traced et) ∧
    2 ≤ (ExecWithRetry envsT db sqls).attempts ∧
    (executeSQLImp (envsF 0) db sqls).err = some (GoErr.traced ef) ∧
    (ExecWithRetry envsF db sqls).res =
      some (ExecError.fatal (GoErr.traced (GoErr.traced ef))) ∧
    (ExecWithRetry envsF db sqls).attempts = 1 := by
  have hT1 := executeSQLImp_commit_fail (envsT 0) db sqls et hbT hokT hcT
  have hF1 := executeSQLImp_commit_fail (envsF 0) db sqls ef hbF hokF hcF
  have heT : (executeSQLImp (envsT 0) db sqls).err = some (GoErr.traced et) := by rw [hT1]
  have heF : (executeSQLImp (envsF 0) db sqls).err = some (GoErr.traced ef) := by rw [hF1]
  have hreT : isRetryableError (GoErr.traced et) = true := by
    rw [isRetryableError_traced]; exact hT
  have hreF : isRetryableError (GoErr.traced ef) = false := by
    rw [isRetryableError_traced]; exact hF
  refine ⟨heT, ?_, heF, ?_, ?_⟩
  · rw [ExecWithRetry_of_ne_nil envsT db sqls hne,
        show defaultMaxRetry = 2 + 1 from rfl,
        execAttempts_retry_attempts envsT sqls 2 0 db none (GoErr.traced et) heT hreT]
    have hpos := execAttempts_attempts_pos envsT sqls 2 (0 + 1)
      (executeSQLImp (envsT 0) db sqls).db (some (GoErr.traced et)) (by decide)
    omega
  · rw [ExecWithRetry_of_ne_nil envsF db sqls hne,
        show defaultMaxRetry = 2 + 1 from rfl,
        execAttempts_fatal_step envsF sqls 2 0 db none (GoErr.traced ef) heF hreF]
  · rw [ExecWithRetry_of_ne_nil envsF db sqls hne,
        show defaultMaxRetry = 2 + 1 from rfl,
        execAttempts_fatal_step envsF sqls 2 0 db none (GoErr.traced ef) heF hreF]

/-- Witness for C8: one batch whose commit hits a deadlock (retried) and
one whose commit hits a duplicate-key error (fatal). -/
theorem commit_failure_classified_witness :
    (executeSQLImp (envCommitFails deadlockErr) 5 ["s1"]).err =
      some (GoErr.traced deadlockErr) ∧
    2 ≤ (ExecWithRetry (fun _ => envCommitFails deadlockErr) 5 ["s1"]).attempts ∧
    (executeSQLImp (envCommitFails dupKeyErr) 5 ["s1"]).err =
      some (GoErr.traced dupKeyErr) ∧
    (ExecWithRetry (fun _ => envCommitFails dupKeyErr) 5 ["s1"]).res =
      some (ExecError.fatal (GoErr.traced (GoErr.traced dupKeyErr))) ∧
    (ExecWithRetry (fun _ => envCommitFails dupKeyErr) 5 ["s1"]).attempts = 1 :=
  commit_failure_classified (fun _ => envCommitFails deadlockErr)
    (fun _ => envCommitFails dupKeyErr) 5 ["s1"] deadlockErr dupKeyErr
    (by decide) rfl (fun _ _ => ⟨id, rfl⟩) rfl (by decide)
    rfl (fun _ _ => ⟨id, rfl⟩) rfl (by decide)

end PdCommon
